import Mathlib

/-!
Shallow embedding of `profiling/remote/__init__.py`: the length-prefixed
frame codec (`pack_stats`, `recv`, `recv_stats`) and the broadcast server
state machine (`BaseProfilingServer.connected`, `.disconnected`,
`.profiling`).  Bytes are modelled as natural numbers, byte strings as
`List Nat`, the Python `set` of clients as a duplicate-free `List`, and
the adapter's observable side effects (logging, watching, sending,
closing, scheduling the round loop) as an explicit event trace.
-/

namespace ProfilingRemote

/-- Model of `struct.pack('!I', n)`: the 4-byte big-endian encoding of `n`
(`SIZE_STRUCT_FORMAT = '!I'`).  Defined only for `n < 2^32`; `structPackU32`
below captures the range check that `struct.pack` performs. -/
def toBytesBE4 (n : Nat) : List Nat :=
  [n / 16777216 % 256, n / 65536 % 256, n / 256 % 256, n % 256]

/-- Model of `struct.unpack('!I', bs)`: big-endian interpretation of a byte list. -/
def fromBytesBE4 (bs : List Nat) : Nat :=
  bs.foldl (fun acc b => acc * 256 + b) 0

/-- Range check of `struct.pack('!I', n)`: it raises `struct.error` when `n` does not fit an
unsigned 32-bit integer; modelled as `none`. -/
def structPackU32 (n : Nat) : Option (List Nat) :=
  if n < 4294967296 then some (toBytesBE4 n) else none

/-- Model of `pack_stats(profiler, pickle_protocol)`: pickles the profiler's result
and prepends the 4-byte big-endian payload size.  The pickling of the
opaque stats object is a parameter `serialize : protocol → stats → bytes`
(the serializer is an external collaborator); `stats` stands for
`profiler.result()`. -/
def pack_stats {S : Type} (serialize : Nat → S → List Nat) (p : Nat) (stats : S) :
    Option (List Nat) :=
  let payload := serialize p stats
  (structPackU32 payload.length).map (fun hdr => hdr ++ payload)

/-- Errors surfaced by the receive path: `recv` raises
`socket.error(ECONNRESET, 'Connection closed')` on a short read, and
`pickle.loads` can fail on undecodable payload bytes. -/
inductive NetError where
  | connectionClosed
  | unpickleError
deriving DecidableEq

/-- Model of `recv(sock, size)`: reads with `MSG_WAITALL`, so it obtains
`min(size, available)` bytes; raises when fewer than `size` arrived.
The transport is modelled as the list of bytes the peer will deliver
before closing; the result pairs the received data with the rest of the
stream. -/
def recv (stream : List Nat) (size : Nat) : Except NetError (List Nat × List Nat) :=
  let data := stream.take size
  if data.length < size then Except.error NetError.connectionClosed
  else Except.ok (data, stream.drop size)

/-- Model of `recv_stats(sock)`: reads `struct.calcsize('!I') = 4` header bytes,
unpacks the size, reads that many payload bytes, and unpickles them.
`deserialize` models `pickle.loads` (some on success, none on failure). -/
def recv_stats {S : Type} (deserialize : List Nat → Option S) (stream : List Nat) :
    Except NetError S :=
  match recv stream 4 with
  | Except.error e => Except.error e
  | Except.ok (hdr, rest) =>
    match recv rest (fromBytesBE4 hdr) with
    | Except.error e => Except.error e
    | Except.ok (payload, _) =>
      match deserialize payload with
      | some s => Except.ok s
      | none => Except.error NetError.unpickleError

/-- Classification of `socket.error` errnos relevant to the server
(`EPIPE`, `EBADF`, `ECONNRESET` from `.errnos`; `eother` is any other
errno). -/
inductive Errno where
  | epipe
  | ebadf
  | econnreset
  | eother
deriving DecidableEq

/-- An exception raised by `_send`: a `socket.error` carrying an errno, or
any exception that is not a `socket.error` (only the former is caught by
the `except socket.error` handlers). -/
inductive SendErr where
  | sock (en : Errno)
  | nonSock
deriving DecidableEq

/-- Outcome of one `_send(client, data)` call. -/
inductive SendOutcome where
  | ok
  | err (e : SendErr)
deriving DecidableEq

/-- Observable side effects of the server: log lines, adapter calls
(`_start_watching`, `_send` on success, `_close`, `_start_profiling`) and
the profiler calls of a round. -/
inductive Event (C : Type) where
  | logConnected (c : C) (total : Nat)
  | logDisconnected (c : C) (total : Nat)
  | watch (c : C)
  | send (c : C) (data : List Nat)
  | close (c : C)
  | startProfiling
  | profStart
  | profStop
deriving DecidableEq

/-- The mutable state of `BaseProfilingServer`: `self.clients` (a Python
set, modelled as a duplicate-free list) and `self._latest_data` (class
attribute initialised to `None`). -/
structure ServerState (C : Type) where
  clients : List C
  latestData : Option (List Nat)
deriving DecidableEq

/-- State after `__init__`: `self.clients = set()` and the inherited
`_latest_data = None`. -/
def initServer (C : Type) : ServerState C := ⟨[], none⟩

/-- Model of `self.clients.add(client)`: a no-op when already a member. -/
def setAdd {C : Type} [DecidableEq C] (cs : List C) (c : C) : List C :=
  if c ∈ cs then cs else cs ++ [c]

/-- Model of `disconnected(client)`: no-op if not a member; otherwise remove, log
the new count, and `_close` the client.  Returns the new state and the
emitted events. -/
def disconnected {C : Type} [DecidableEq C] (st : ServerState C) (c : C) :
    ServerState C × List (Event C) :=
  if c ∈ st.clients then
    let cs := st.clients.erase c
    (⟨cs, st.latestData⟩, [Event.logDisconnected c cs.length, Event.close c])
  else (st, [])

/-- Result of a `connected` call: the state at return, the events emitted
before returning or raising, and the propagated exception if one escaped. -/
structure ConnResult (C : Type) where
  state : ServerState C
  events : List (Event C)
  raised : Option SendErr
deriving DecidableEq

/-- Model of `connected(client)`: add to the set, log with the new count, start
watching, attempt catch-up delivery of `_latest_data` when it is not
`None` (on `EBADF`/`EPIPE` call `disconnected` and return; any other
exception propagates), then `_start_profiling()` when `len(clients) == 1`.
`sendTo` models the adapter's `_send` outcome per client and payload. -/
def connected {C : Type} [DecidableEq C] (sendTo : C → List Nat → SendOutcome)
    (st : ServerState C) (c : C) : ConnResult C :=
  let cs := setAdd st.clients c
  let st1 : ServerState C := ⟨cs, st.latestData⟩
  let ev0 : List (Event C) := [Event.logConnected c cs.length, Event.watch c]
  match st.latestData with
  | none =>
    if cs.length = 1 then ⟨st1, ev0 ++ [Event.startProfiling], none⟩
    else ⟨st1, ev0, none⟩
  | some data =>
    match sendTo c data with
    | SendOutcome.ok =>
      if cs.length = 1 then ⟨st1, ev0 ++ [Event.send c data, Event.startProfiling], none⟩
      else ⟨st1, ev0 ++ [Event.send c data], none⟩
    | SendOutcome.err e =>
      if e = SendErr.sock Errno.ebadf ∨ e = SendErr.sock Errno.epipe then
        let d := disconnected st1 c
        ⟨d.1, ev0 ++ d.2, none⟩
      else ⟨st1, ev0, some e⟩

/-- The broadcast pass of one round (`for client in self.clients`): send
to each client in order; on `socket.error` with `errno == EPIPE` record the
client in `closed_clients` and continue; on any other `socket.error` fall
through the handler (`pass`) and continue; a non-`socket.error` exception
aborts the pass and propagates.  Returns (events, closed clients, aborted). -/
def broadcastPass {C : Type} [DecidableEq C] (sendTo : C → List Nat → SendOutcome)
    (data : List Nat) : List C → List (Event C) × List C × Bool
  | [] => ([], [], false)
  | c :: rest =>
    match sendTo c data with
    | SendOutcome.ok =>
      let r := broadcastPass sendTo data rest
      (Event.send c data :: r.1, r.2.1, r.2.2)
    | SendOutcome.err (SendErr.sock en) =>
      if en = Errno.epipe then
        let r := broadcastPass sendTo data rest
        (r.1, c :: r.2.1, r.2.2)
      else broadcastPass sendTo data rest
    | SendOutcome.err SendErr.nonSock => ([], [], true)

/-- The deferred-removal sweep at the end of a round
(`for client in closed_clients: self.disconnected(client)`). -/
def disconnectAll {C : Type} [DecidableEq C] :
    ServerState C → List C → ServerState C × List (Event C)
  | st, [] => (st, [])
  | st, c :: rest =>
    let d := disconnected st c
    let r := disconnectAll d.1 rest
    (r.1, d.2 ++ r.2)

/-- Result of one round-loop iteration: state, events, and whether a
non-`socket.error` exception propagated out of the generator. -/
structure RoundResult (C : Type) where
  state : ServerState C
  events : List (Event C)
  aborted : Bool
deriving DecidableEq

/-- One iteration of the `while self.clients` body of `profiling()`:
start and stop the profiler, store the packed frame `data` as
`_latest_data`, broadcast it to every client, then disconnect the
clients recorded as closed.  `data` is the `pack_stats` output for this
round's snapshot. -/
def profilingRound {C : Type} [DecidableEq C] (sendTo : C → List Nat → SendOutcome)
    (st : ServerState C) (data : List Nat) : RoundResult C :=
  let st1 : ServerState C := ⟨st.clients, some data⟩
  let b := broadcastPass sendTo data st1.clients
  if b.2.2 then ⟨st1, Event.profStart :: Event.profStop :: b.1, true⟩
  else
    let d := disconnectAll st1 b.2.1
    ⟨d.1, Event.profStart :: Event.profStop :: (b.1 ++ d.2), false⟩

/-- Number of `_start_profiling()` calls in a trace. -/
def countStartProf {C : Type} (evs : List (Event C)) : Nat :=
  evs.countP (fun e => match e with | Event.startProfiling => true | _ => false)

/-- Whether the catch-up phase of `connected` completes without an early
return or a raise: vacuously when `_latest_data is None`, otherwise when
the catch-up send succeeds. -/
def catchUpPasses {C : Type} [DecidableEq C] (sendTo : C → List Nat → SendOutcome)
    (st : ServerState C) (c : C) : Bool :=
  match st.latestData with
  | none => true
  | some d => decide (sendTo c d = SendOutcome.ok)

/-- A tiny concrete serializer (two bytes, little value first) used to
instantiate the codec theorems on concrete inputs. -/
def natSerialize : Nat → Nat → List Nat := fun _ s => [s % 256, s / 256 % 256]

/-- Concrete deserializer inverting `natSerialize` on values below 65536. -/
def natDeserialize : List Nat → Option Nat := fun l =>
  match l with
  | [a, b] => some (a + 256 * b)
  | _ => none

/-- A concrete send oracle for which only client 1 fails, with a broken
pipe. -/
def natPipeAt1 : Nat → List Nat → SendOutcome := fun c _ =>
  if c = 1 then SendOutcome.err (SendErr.sock Errno.epipe) else SendOutcome.ok

lemma toBytesBE4_length (n : Nat) : (toBytesBE4 n).length = 4 := rfl

lemma fromBytesBE4_toBytesBE4 (n : Nat) (h : n < 4294967296) :
    fromBytesBE4 (toBytesBE4 n) = n := by
  simp only [toBytesBE4, fromBytesBE4, List.foldl]
  omega

lemma recv_append (pre post : List Nat) :
    recv (pre ++ post) pre.length = Except.ok (pre, post) := by
  unfold recv
  have htake : (pre ++ post).take pre.length = pre := List.take_left pre post
  have hdrop : (pre ++ post).drop pre.length = post := List.drop_left pre post
  simp [htake, hdrop]

lemma pack_stats_eq {S : Type} (serialize : Nat → S → List Nat) (p : Nat) (s : S)
    (h : (serialize p s).length < 4294967296) :
    pack_stats serialize p s =
      some (toBytesBE4 (serialize p s).length ++ serialize p s) := by
  simp [pack_stats, structPackU32, h]

/-- C1: Round-trip law of the frame codec.  For any snapshot `s` and
protocol selector `p`, provided the serializer inverts its own output on
`s` (the pickle contract) and the payload fits the 4-byte length header,
decoding the stream that contains exactly the bytes `pack_stats` wrote
yields `s`. -/
theorem frame_codec_roundtrip {S : Type} (serialize : Nat → S → List Nat)
    (deserialize : List Nat → Option S) (p : Nat) (s : S)
    (hinv : deserialize (serialize p s) = some s)
    (hsize : (serialize p s).length < 4294967296) :
    ∃ frame, pack_stats serialize p s = some frame ∧
      recv_stats deserialize frame = Except.ok s := by
  refine ⟨toBytesBE4 (serialize p s).length ++ serialize p s,
    pack_stats_eq serialize p s hsize, ?_⟩
  unfold recv_stats
  have h4 : recv (toBytesBE4 (serialize p s).length ++ serialize p s) 4 =
      Except.ok (toBytesBE4 (serialize p s).length, serialize p s) := by
    have := recv_append (toBytesBE4 (serialize p s).length) (serialize p s)
    rwa [toBytesBE4_length] at this
  have hlen := fromBytesBE4_toBytesBE4 (serialize p s).length hsize
  have hpay : recv (serialize p s) (serialize p s).length =
      Except.ok (serialize p s, []) := by
    have := recv_append (serialize p s) []
    simpa using this
  simp [h4, hlen, hpay, hinv]

/-- Witness for `frame_codec_roundtrip` at protocol 0 and snapshot 42. -/
theorem frame_codec_roundtrip_witness :
    ∃ frame, pack_stats natSerialize 0 42 = some frame ∧
      recv_stats natDeserialize frame = Except.ok 42 :=
  frame_codec_roundtrip natSerialize natDeserialize 0 42 (by decide) (by decide)

/-- C5: `recv` returns exactly `n` bytes (the first `n` of the stream)
when at least `n` bytes are delivered before the peer closes, and raises
`ConnectionClosed` whenever the stream ends before `n` bytes; no partial
data is ever returned. -/
theorem recv_exact (stream : List Nat) (n : Nat) :
    (n ≤ stream.length →
      recv stream n = Except.ok (stream.take n, stream.drop n) ∧
        (stream.take n).length = n) ∧
    (stream.length < n → recv stream n = Except.error NetError.connectionClosed) := by
  constructor
  · intro h
    have hlen : (stream.take n).length = n := by
      simp [List.length_take]
      omega
    refine ⟨?_, hlen⟩
    unfold recv
    simp [hlen]
  · intro h
    unfold recv
    have hlen : (stream.take n).length = stream.length := by
      simp [List.length_take]
      omega
    simp [hlen, h]

/-- Witness for `recv_exact`: a complete read of 2 bytes from a 3-byte
stream, and a short read of 3 bytes from a 1-byte stream. -/
theorem recv_exact_witness :
    (recv [5, 6, 7] 2 = Except.ok ([5, 6], [7]) ∧
      (([5, 6, 7] : List Nat).take 2).length = 2) ∧
    recv [5] 3 = Except.error NetError.connectionClosed :=
  ⟨(recv_exact [5, 6, 7] 2).1 (by decide), (recv_exact [5] 3).2 (by decide)⟩

/-- C6: Wire format of `pack_stats`.  The produced frame is the 4-byte
big-endian encoding of the payload length followed by exactly the payload
bytes and nothing else: its length is `4 + payload length`, its first 4
bytes decode to the payload length, and the rest is the payload. -/
theorem pack_stats_wire_format {S : Type} (serialize : Nat → S → List Nat)
    (p : Nat) (s : S) (h : (serialize p s).length < 4294967296) :
    pack_stats serialize p s =
      some (toBytesBE4 (serialize p s).length ++ serialize p s) ∧
    ∀ frame, pack_stats serialize p s = some frame →
      frame.length = 4 + (serialize p s).length ∧
      frame.take 4 = toBytesBE4 (serialize p s).length ∧
      fromBytesBE4 (frame.take 4) = (serialize p s).length ∧
      frame.drop 4 = serialize p s := by
  have heq := pack_stats_eq serialize p s h
  refine ⟨heq, ?_⟩
  intro frame hframe
  rw [heq] at hframe
  have hf : frame = toBytesBE4 (serialize p s).length ++ serialize p s :=
    (Option.some_inj.mp hframe).symm
  subst hf
  have htake : (toBytesBE4 (serialize p s).length ++ serialize p s).take 4 =
      toBytesBE4 (serialize p s).length := by
    have := List.take_left (toBytesBE4 (serialize p s).length) (serialize p s)
    rwa [toBytesBE4_length] at this
  have hdrop : (toBytesBE4 (serialize p s).length ++ serialize p s).drop 4 =
      serialize p s := by
    have := List.drop_left (toBytesBE4 (serialize p s).length) (serialize p s)
    rwa [toBytesBE4_length] at this
  refine ⟨?_, htake, ?_, hdrop⟩
  · simp [List.length_append, toBytesBE4_length]
  · rw [htake, fromBytesBE4_toBytesBE4 _ h]

lemma mem_setAdd_self {C : Type} [DecidableEq C] (cs : List C) (c : C) :
    c ∈ setAdd cs c := by
  unfold setAdd
  by_cases h : c ∈ cs <;> simp [h]

lemma disconnected_latestData {C : Type} [DecidableEq C] (st : ServerState C) (c : C) :
    (disconnected st c).1.latestData = st.latestData := by
  unfold disconnected
  by_cases h : c ∈ st.clients <;> simp [h]

lemma disconnectAll_latestData {C : Type} [DecidableEq C] (cs : List C)
    (st : ServerState C) :
    (disconnectAll st cs).1.latestData = st.latestData := by
  induction cs generalizing st with
  | nil => rfl
  | cons c rest ih =>
    unfold disconnectAll
    rw [ih]
    exact disconnected_latestData st c

/-- C3 (amended): `_start_profiling` is called exactly when the catch-up
phase of `connected` completes without an early return or a raise and the
client set has size 1 after the (idempotent) add — and then it is a single
call.  In particular the scheduling condition is the post-add size, not a
transition from empty: re-connecting the sole existing member schedules
again. -/
theorem connected_schedules_iff {C : Type} [DecidableEq C]
    (sendTo : C → List Nat → SendOutcome) (st : ServerState C) (c : C) :
    countStartProf (connected sendTo st c).events =
      if catchUpPasses sendTo st c = true ∧ (setAdd st.clients c).length = 1
      then 1 else 0 := by
  unfold connected catchUpPasses
  cases hld : st.latestData with
  | none =>
    by_cases hlen : (setAdd st.clients c).length = 1 <;>
      simp [hlen, countStartProf]
  | some d =>
    cases hs : sendTo c d with
    | ok =>
      by_cases hlen : (setAdd st.clients c).length = 1 <;>
        simp [hs, hlen, countStartProf]
    | err e =>
      by_cases he : e = SendErr.sock Errno.ebadf ∨ e = SendErr.sock Errno.epipe
      · unfold disconnected
        by_cases hm : c ∈ setAdd st.clients c <;>
          simp [hs, he, hm, countStartProf]
      · simp [hs, he, countStartProf]

/-- Witness for `connected_schedules_iff`: a first client joining an empty
server schedules the loop once. -/
theorem connected_schedules_iff_witness :
    countStartProf
        (connected (fun _ _ => SendOutcome.ok) (⟨[], none⟩ : ServerState Nat) 7).events =
      if catchUpPasses (fun _ _ => SendOutcome.ok) (⟨[], none⟩ : ServerState Nat) 7 = true ∧
          (setAdd ([] : List Nat) 7).length = 1
      then 1 else 0 :=
  connected_schedules_iff (fun _ _ => SendOutcome.ok) ⟨[], none⟩ 7

/-- Counterexample to C3 as stated: calling `connected` with the client
that is already the sole member does not transition the set from empty
(the set is `[7]` before and after), yet `_start_profiling` is called. -/
theorem connected_schedules_counterexample :
    (⟨[7], none⟩ : ServerState Nat).clients ≠ [] ∧
    7 ∈ (⟨[7], none⟩ : ServerState Nat).clients ∧
    (connected (fun _ _ => SendOutcome.ok) (⟨[7], none⟩ : ServerState Nat) 7).state.clients
      = [7] ∧
    countStartProf
        (connected (fun _ _ => SendOutcome.ok) (⟨[7], none⟩ : ServerState Nat) 7).events
      = 1 := by
  decide

/-- C8: `disconnected` is idempotent.  A call with a non-member returns
the state unchanged with no events (no log, no close); hence a second
call right after a first one is an exact no-op. -/
theorem disconnected_idempotent {C : Type} [DecidableEq C] (st : ServerState C)
    (c : C) (hnd : st.clients.Nodup) :
    (c ∉ st.clients → disconnected st c = (st, [])) ∧
    disconnected (disconnected st c).1 c = ((disconnected st c).1, []) := by
  constructor
  · intro h
    simp [disconnected, h]
  · by_cases h : c ∈ st.clients
    · have h2 : c ∉ st.clients.erase c := by
        intro hmem
        exact absurd rfl ((hnd.mem_erase_iff.mp hmem).1)
      simp [disconnected, h, h2]
    · simp [disconnected, h]

/-- Witness for `disconnected_idempotent`: on the server `{0, 1}`,
disconnecting the non-member 5 is a no-op, and disconnecting 0 twice
equals disconnecting it once. -/
theorem disconnected_idempotent_witness :
    disconnected (⟨[0, 1], none⟩ : ServerState Nat) 5 = (⟨[0, 1], none⟩, []) ∧
    disconnected (disconnected (⟨[0, 1], none⟩ : ServerState Nat) 0).1 0 =
      ((disconnected (⟨[0, 1], none⟩ : ServerState Nat) 0).1, []) :=
  ⟨(disconnected_idempotent ⟨[0, 1], none⟩ 5 (by decide)).1 (by decide),
    (disconnected_idempotent ⟨[0, 1], none⟩ 0 (by decide)).2⟩

/-- C9: the latest-frame invariant.  `_latest_data` is `None` at
construction; `connected` and `disconnected` never change it; a round
iteration always sets it to that round's frame (never back to `None`).
Hence once non-null it is only ever replaced, at round completion. -/
theorem latest_frame_invariant (C : Type) [DecidableEq C] :
    (initServer C).latestData = none ∧
    (∀ (sendTo : C → List Nat → SendOutcome) (st : ServerState C) (c : C),
      (connected sendTo st c).state.latestData = st.latestData) ∧
    (∀ (st : ServerState C) (c : C),
      (disconnected st c).1.latestData = st.latestData) ∧
    (∀ (sendTo : C → List Nat → SendOutcome) (st : ServerState C) (data : List Nat),
      (profilingRound sendTo st data).state.latestData = some data) := by
  refine ⟨rfl, ?_, fun st c => disconnected_latestData st c, ?_⟩
  · intro sendTo st c
    unfold connected
    cases hld : st.latestData with
    | none =>
      by_cases hlen : (setAdd st.clients c).length = 1 <;> simp [hlen]
    | some d =>
      cases hs : sendTo c d with
      | ok =>
        by_cases hlen : (setAdd st.clients c).length = 1 <;> simp [hs, hlen]
      | err e =>
        by_cases he : e = SendErr.sock Errno.ebadf ∨ e = SendErr.sock Errno.epipe
        · simp [hs, he, disconnected_latestData]
        · simp [hs, he]
  · intro sendTo st data
    unfold profilingRound
    by_cases hab : (broadcastPass sendTo data st.clients).2.2 <;>
      simp [hab, disconnectAll_latestData]

/-- Witness for `pack_stats_wire_format` at protocol 0 and snapshot 300. -/
theorem pack_stats_wire_format_witness :
    pack_stats natSerialize 0 300 =
      some (toBytesBE4 (natSerialize 0 300).length ++ natSerialize 0 300) ∧
    (toBytesBE4 (natSerialize 0 300).length ++ natSerialize 0 300).length =
      4 + (natSerialize 0 300).length :=
  ⟨(pack_stats_wire_format natSerialize 0 300 (by decide)).1,
    ((pack_stats_wire_format natSerialize 0 300 (by decide)).2
      (toBytesBE4 (natSerialize 0 300).length ++ natSerialize 0 300)
      (pack_stats_wire_format natSerialize 0 300 (by decide)).1).1⟩

/-- C4: Catch-up delivery in `connected`.  When `_latest_data` is non-null
and the send succeeds the new client receives it and nothing is raised;
when the send fails with `EPIPE` or `EBADF` the result is exactly the
`disconnected` path and `connected` returns without raising; any other
exception propagates; when `_latest_data` is `None` no catch-up send is
attempted. -/
theorem connected_catchup {C : Type} [DecidableEq C]
    (sendTo : C → List Nat → SendOutcome) (st : ServerState C) (c : C) :
    (∀ d, st.latestData = some d → sendTo c d = SendOutcome.ok →
      Event.send c d ∈ (connected sendTo st c).events ∧
      (connected sendTo st c).raised = none) ∧
    (∀ d, st.latestData = some d →
      (sendTo c d = SendOutcome.err (SendErr.sock Errno.epipe) ∨
        sendTo c d = SendOutcome.err (SendErr.sock Errno.ebadf)) →
      (connected sendTo st c).state =
        (disconnected ⟨setAdd st.clients c, st.latestData⟩ c).1 ∧
      (connected sendTo st c).events =
        [Event.logConnected c (setAdd st.clients c).length, Event.watch c] ++
          (disconnected ⟨setAdd st.clients c, st.latestData⟩ c).2 ∧
      (connected sendTo st c).raised = none) ∧
    (∀ d e, st.latestData = some d → sendTo c d = SendOutcome.err e →
      e ≠ SendErr.sock Errno.epipe → e ≠ SendErr.sock Errno.ebadf →
      (connected sendTo st c).raised = some e) ∧
    (st.latestData = none →
      (∀ c' d, Event.send c' d ∉ (connected sendTo st c).events) ∧
      (connected sendTo st c).raised = none) := by
  refine ⟨?_, ?_, ?_, ?_⟩
  · intro d hld hs
    unfold connected
    rw [hld]
    by_cases hlen : (setAdd st.clients c).length = 1 <;> simp [hs, hlen]
  · intro d hld hs
    rcases hs with hs | hs <;> simp [connected, hld, hs]
  · intro d e hld hs hne hnb
    have he : ¬(e = SendErr.sock Errno.ebadf ∨ e = SendErr.sock Errno.epipe) := by
      rcases e with en | _
      · rcases en <;> simp_all
      · simp
    simp [connected, hld, hs, he]
  · intro hld
    unfold connected
    rw [hld]
    by_cases hlen : (setAdd st.clients c).length = 1 <;> simp [hlen]

/-- Witness for `connected_catchup`: a server with latest frame `[9]` and
clients that always acknowledge; the catch-up send to client 3 succeeds
and is visible in the trace, plus the three other cases at concrete
inputs. -/
theorem connected_catchup_witness :
    (Event.send 3 [9] ∈
        (connected (fun _ _ => SendOutcome.ok) (⟨[], some [9]⟩ : ServerState Nat) 3).events ∧
      (connected (fun _ _ => SendOutcome.ok) (⟨[], some [9]⟩ : ServerState Nat) 3).raised
        = none) ∧
    ((connected (fun _ _ => SendOutcome.err (SendErr.sock Errno.epipe))
        (⟨[], some [9]⟩ : ServerState Nat) 3).state =
      (disconnected (⟨setAdd ([] : List Nat) 3, some [9]⟩ : ServerState Nat) 3).1 ∧
      (connected (fun _ _ => SendOutcome.err (SendErr.sock Errno.epipe))
        (⟨[], some [9]⟩ : ServerState Nat) 3).events =
      [Event.logConnected 3 (setAdd ([] : List Nat) 3).length, Event.watch 3] ++
        (disconnected (⟨setAdd ([] : List Nat) 3, some [9]⟩ : ServerState Nat) 3).2 ∧
      (connected (fun _ _ => SendOutcome.err (SendErr.sock Errno.epipe))
        (⟨[], some [9]⟩ : ServerState Nat) 3).raised = none) ∧
    (connected (fun _ _ => SendOutcome.err SendErr.nonSock)
        (⟨[], some [9]⟩ : ServerState Nat) 3).raised = some SendErr.nonSock ∧
    ((∀ c' d, Event.send c' d ∉
        (connected (fun _ _ => SendOutcome.ok) (⟨[], none⟩ : ServerState Nat) 3).events) ∧
      (connected (fun _ _ => SendOutcome.ok) (⟨[], none⟩ : ServerState Nat) 3).raised
        = none) :=
  ⟨(connected_catchup (fun _ _ => SendOutcome.ok) ⟨[], some [9]⟩ 3).1 [9] rfl rfl,
    (connected_catchup (fun _ _ => SendOutcome.err (SendErr.sock Errno.epipe))
      ⟨[], some [9]⟩ 3).2.1 [9] rfl (Or.inl rfl),
    (connected_catchup (fun _ _ => SendOutcome.err SendErr.nonSock)
      ⟨[], some [9]⟩ 3).2.2.1 [9] SendErr.nonSock rfl rfl (by decide) (by decide),
    (connected_catchup (fun _ _ => SendOutcome.ok) ⟨[], none⟩ 3).2.2.2 rfl⟩

/-- C10: when the catch-up send fails with `EPIPE` or `EBADF` and the
joining client would have been the set's only member, `connected` leaves
the set empty, the client's transport is closed through the disconnect
path, no exception escapes, and `_start_profiling` is never called
because `connected` returns before the size-1 check. -/
theorem connected_catchup_fail_sole {C : Type} [DecidableEq C]
    (sendTo : C → List Nat → SendOutcome) (st : ServerState C) (c : C)
    (d : List Nat) (e : Errno)
    (hcl : st.clients = [] ∨ st.clients = [c])
    (hld : st.latestData = some d)
    (hs : sendTo c d = SendOutcome.err (SendErr.sock e))
    (he : e = Errno.epipe ∨ e = Errno.ebadf) :
    (connected sendTo st c).state.clients = [] ∧
    Event.close c ∈ (connected sendTo st c).events ∧
    countStartProf (connected sendTo st c).events = 0 ∧
    (connected sendTo st c).raised = none := by
  have hadd : setAdd st.clients c = [c] := by
    rcases hcl with h | h <;> simp [setAdd, h]
  have he2 : SendErr.sock e = SendErr.sock Errno.ebadf ∨
      SendErr.sock e = SendErr.sock Errno.epipe := by
    rcases he with h | h <;> simp [h]
  have he3 : e = Errno.ebadf ∨ e = Errno.epipe := he.symm
  simp [connected, hld, hs, hadd, he2, he3, disconnected, countStartProf]

/-- Witness for `connected_catchup_fail_sole`: client 3 joins an empty
server whose latest frame is `[9]` and its catch-up send breaks the pipe. -/
theorem connected_catchup_fail_sole_witness :
    (connected (fun _ _ => SendOutcome.err (SendErr.sock Errno.epipe))
        (⟨[], some [9]⟩ : ServerState Nat) 3).state.clients = [] ∧
    Event.close 3 ∈
      (connected (fun _ _ => SendOutcome.err (SendErr.sock Errno.epipe))
        (⟨[], some [9]⟩ : ServerState Nat) 3).events ∧
    countStartProf
        (connected (fun _ _ => SendOutcome.err (SendErr.sock Errno.epipe))
          (⟨[], some [9]⟩ : ServerState Nat) 3).events = 0 ∧
    (connected (fun _ _ => SendOutcome.err (SendErr.sock Errno.epipe))
        (⟨[], some [9]⟩ : ServerState Nat) 3).raised = none :=
  connected_catchup_fail_sole (fun _ _ => SendOutcome.err (SendErr.sock Errno.epipe))
    ⟨[], some [9]⟩ 3 [9] Errno.epipe (Or.inl rfl) rfl rfl (Or.inl rfl)

/-- C7: Partial-failure isolation in one round.  With clients `a`, `b`,
`k` where only `b`'s send breaks the pipe: `b` is removed, `a` and `k`
each receive the round's frame exactly once, all sends happen before the
deferred removal (the trace is sends first, then the disconnect of `b`),
and a subsequent broadcast pass covers exactly `a` and `k`. -/
theorem round_partial_failure_isolation {C : Type} [DecidableEq C]
    (a b k : C) (data : List Nat) (sendTo : C → List Nat → SendOutcome)
    (hab : a ≠ b) (hak : a ≠ k) (hbk : b ≠ k)
    (ha : sendTo a data = SendOutcome.ok)
    (hb : sendTo b data = SendOutcome.err (SendErr.sock Errno.epipe))
    (hk : sendTo k data = SendOutcome.ok)
    (st : ServerState C) (hcl : st.clients = [a, b, k]) :
    (profilingRound sendTo st data).state.clients = [a, k] ∧
    b ∉ (profilingRound sendTo st data).state.clients ∧
    (profilingRound sendTo st data).events =
      [Event.profStart, Event.profStop, Event.send a data, Event.send k data,
        Event.logDisconnected b 2, Event.close b] ∧
    ((profilingRound sendTo st data).events.countP
      (fun e => decide (e = Event.send a data))) = 1 ∧
    ((profilingRound sendTo st data).events.countP
      (fun e => decide (e = Event.send k data))) = 1 ∧
    ((profilingRound sendTo st data).events.countP
      (fun e => decide (e = Event.send b data))) = 0 ∧
    (profilingRound sendTo st data).aborted = false ∧
    (∀ data2, (broadcastPass (fun _ _ => SendOutcome.ok) data2
        (profilingRound sendTo st data).state.clients).1 =
      [Event.send a data2, Event.send k data2]) := by
  have hba : b ≠ a := Ne.symm hab
  have hka : k ≠ a := Ne.symm hak
  have hkb : k ≠ b := Ne.symm hbk
  have herase : ([a, b, k] : List C).erase b = [a, k] := by
    simp [List.erase_cons, hab]
  have hround : profilingRound sendTo st data =
      ⟨⟨[a, k], some data⟩,
        [Event.profStart, Event.profStop, Event.send a data, Event.send k data,
          Event.logDisconnected b 2, Event.close b], false⟩ := by
    simp [profilingRound, hcl, broadcastPass, ha, hb, hk, disconnectAll,
      disconnected, herase]
  rw [hround]
  refine ⟨rfl, ?_, rfl, ?_, ?_, ?_, rfl, ?_⟩
  · simp [hba, hbk]
  · simp [List.countP_cons, hka]
  · simp [List.countP_cons, hak]
  · simp [List.countP_cons, hab, hkb]
  · intro data2
    simp [broadcastPass]

/-- Witness for `round_partial_failure_isolation` with clients 0, 1, 2
where only client 1 breaks the pipe. -/
theorem round_partial_failure_isolation_witness :
    (profilingRound natPipeAt1 (⟨[0, 1, 2], none⟩ : ServerState Nat) [9]).state.clients
      = [0, 2] ∧
    1 ∉ (profilingRound natPipeAt1 (⟨[0, 1, 2], none⟩ : ServerState Nat) [9]).state.clients ∧
    (profilingRound natPipeAt1 (⟨[0, 1, 2], none⟩ : ServerState Nat) [9]).events =
      [Event.profStart, Event.profStop, Event.send 0 [9], Event.send 2 [9],
        Event.logDisconnected 1 2, Event.close 1] ∧
    ((profilingRound natPipeAt1 (⟨[0, 1, 2], none⟩ : ServerState Nat) [9]).events.countP
      (fun e => decide (e = Event.send 0 [9]))) = 1 ∧
    ((profilingRound natPipeAt1 (⟨[0, 1, 2], none⟩ : ServerState Nat) [9]).events.countP
      (fun e => decide (e = Event.send 2 [9]))) = 1 ∧
    ((profilingRound natPipeAt1 (⟨[0, 1, 2], none⟩ : ServerState Nat) [9]).events.countP
      (fun e => decide (e = Event.send 1 [9]))) = 0 ∧
    (profilingRound natPipeAt1 (⟨[0, 1, 2], none⟩ : ServerState Nat) [9]).aborted = false ∧
    (∀ data2, (broadcastPass (fun _ _ => SendOutcome.ok) data2
        (profilingRound natPipeAt1 (⟨[0, 1, 2], none⟩ : ServerState Nat) [9]).state.clients).1 =
      [Event.send 0 data2, Event.send 2 data2]) :=
  round_partial_failure_isolation 0 1 2 [9] natPipeAt1
    (by decide) (by decide) (by decide) rfl rfl rfl ⟨[0, 1, 2], none⟩ rfl

/-- C2, evaluated at the failing input: a broadcast send that raises
`socket.error` with `errno == ECONNRESET` is silently swallowed by the
round loop — the client stays in the set, nothing is recorded for
removal, and no exception propagates — whereas an `EPIPE` failure is
recorded for deferred removal.  This contradicts the claim that
non-broken-pipe transport errors propagate out of the round loop. -/
theorem broadcast_swallows_connreset :
    (profilingRound (fun _ _ => SendOutcome.err (SendErr.sock Errno.econnreset))
        (⟨[0], none⟩ : ServerState Nat) [9]).state.clients = [0] ∧
    (profilingRound (fun _ _ => SendOutcome.err (SendErr.sock Errno.econnreset))
        (⟨[0], none⟩ : ServerState Nat) [9]).aborted = false ∧
    (profilingRound (fun _ _ => SendOutcome.err (SendErr.sock Errno.econnreset))
        (⟨[0], none⟩ : ServerState Nat) [9]).events =
      [Event.profStart, Event.profStop] ∧
    broadcastPass (fun _ _ => SendOutcome.err (SendErr.sock Errno.econnreset)) [9] [0] =
      ([], [], false) ∧
    broadcastPass (fun _ _ => SendOutcome.err (SendErr.sock Errno.epipe)) [9] [0] =
      ([], [0], false) := by
  decide

end ProfilingRemote
